import Mathlib

/-!
Verification of `dockerhook-server.py`, a webhook-triggered deployment agent.

The embedding models:
* the HMAC-SHA256 signature verifier (`verify_signature`), including the real
  SHA-256 / HMAC computation over byte lists (`List Nat`, each entry < 256);
* the two deployment executors (`update_container`, `deploy_container`) against
  an abstract container runtime `docker : List String → Bool` mapping an argv
  to success/failure of the subprocess call; each executor returns the Python
  function's boolean result together with the list of runtime argvs issued, in
  order;
* the `/webhook` handler (`handle_webhook`) over a small JSON model.

Python exceptions are modelled with `Except Unit`: `.error ()` marks a raised
exception at that point of the translated code.
-/

set_option maxRecDepth 10000

/-! ## Bytes, hex and UTF-8 -/

/-- Truncation to a 32-bit word. -/
def w32 (x : Nat) : Nat := x % 4294967296

/-- Rotate the 32-bit word `x` right by `n` positions. -/
def rotr (n x : Nat) : Nat := w32 ((x >>> n) ||| (x <<< (32 - n)))

/-- Big-endian bytes of `v`, `k` bytes wide. -/
def natToBEBytes : Nat → Nat → List Nat
  | 0, _ => []
  | k + 1, v => natToBEBytes k (v / 256) ++ [v % 256]

/-- Lowercase hex character of a nibble, as produced by Python's `hexdigest`. -/
def hexChar : Nat → Char
  | 0 => '0' | 1 => '1' | 2 => '2' | 3 => '3' | 4 => '4'
  | 5 => '5' | 6 => '6' | 7 => '7' | 8 => '8' | 9 => '9'
  | 10 => 'a' | 11 => 'b' | 12 => 'c' | 13 => 'd' | 14 => 'e'
  | _ => 'f'

/-- Lowercase hex rendering of a byte list (Python `hexdigest`). -/
def hexOfBytes (bs : List Nat) : List Char :=
  bs.foldr (fun b acc => hexChar (b / 16 % 16) :: hexChar (b % 16) :: acc) []

/-- Lowercase hex string of a byte list. -/
def hexDigestOfBytes (bs : List Nat) : String := ⟨hexOfBytes bs⟩

/-- UTF-8 encoding of one character. -/
def utf8Char (c : Char) : List Nat :=
  let n := c.toNat
  if n < 128 then [n]
  else if n < 2048 then [192 + n / 64, 128 + n % 64]
  else if n < 65536 then [224 + n / 4096, 128 + n / 64 % 64, 128 + n % 64]
  else [240 + n / 262144, 128 + n / 4096 % 64, 128 + n / 64 % 64, 128 + n % 64]

/-- UTF-8 encoding of a string (Python `str.encode()`). -/
def utf8Encode (s : String) : List Nat :=
  s.data.foldr (fun c acc => utf8Char c ++ acc) []

/-! ## SHA-256 (FIPS 180-4) -/

/-- The 64 SHA-256 round constants, written in decimal (fractional parts of
the cube roots of the first 64 primes, 32-bit). -/
def sha256K : List Nat :=
  [1116352408, 1899447441, 3049323471, 3921009573, 961987163,
   1508970993, 2453635748, 2870763221, 3624381080, 310598401,
   607225278, 1426881987, 1925078388, 2162078206, 2614888103,
   3248222580, 3835390401, 4022224774, 264347078, 604807628,
   770255983, 1249150122, 1555081692, 1996064986, 2554220882,
   2821834349, 2952996808, 3210313671, 3336571891, 3584528711,
   113926993, 338241895, 666307205, 773529912, 1294757372,
   1396182291, 1695183700, 1986661051, 2177026350, 2456956037,
   2730485921, 2820302411, 3259730800, 3345764771, 3516065817,
   3600352804, 4094571909, 275423344, 430227734, 506948616,
   659060556, 883997877, 958139571, 1322822218, 1537002063,
   1747873779, 1955562222, 2024104815, 2227730452, 2361852424,
   2428436474, 2756734187, 3204031479, 3329325298]

/-- The eight-word SHA-256 initial state, in decimal. -/
def sha256H0 : List Nat :=
  [1779033703, 3144134277, 1013904242, 2773480762, 1359893119,
   2600822924, 528734635, 1541459225]

/-- Big-endian packing of bytes into 32-bit words. -/
def toWordsBE : List Nat → List Nat
  | b0 :: b1 :: b2 :: b3 :: rest => (((b0 * 256 + b1) * 256 + b2) * 256 + b3) :: toWordsBE rest
  | _ => []

/-- The `Ch` function of SHA-256. -/
def chF (x y z : Nat) : Nat := (x &&& y) ^^^ ((x ^^^ 4294967295) &&& z)

/-- The `Maj` function of SHA-256. -/
def majF (x y z : Nat) : Nat := (x &&& y) ^^^ (x &&& z) ^^^ (y &&& z)

/-- Big sigma-0. -/
def bSig0 (x : Nat) : Nat := rotr 2 x ^^^ rotr 13 x ^^^ rotr 22 x

/-- Big sigma-1. -/
def bSig1 (x : Nat) : Nat := rotr 6 x ^^^ rotr 11 x ^^^ rotr 25 x

/-- Small sigma-0. -/
def sSig0 (x : Nat) : Nat := rotr 7 x ^^^ rotr 18 x ^^^ (x >>> 3)

/-- Small sigma-1. -/
def sSig1 (x : Nat) : Nat := rotr 17 x ^^^ rotr 19 x ^^^ (x >>> 10)

/-- Message-schedule extension of the 16 block words to 64 words. -/
def schedule64 (w16 : List Nat) : List Nat :=
  (List.range 64).foldl
    (fun acc i =>
      if i < 16 then acc ++ [w16.getD i 0]
      else acc ++ [w32 (sSig1 (acc.getD (i - 2) 0) + acc.getD (i - 7) 0 +
                        sSig0 (acc.getD (i - 15) 0) + acc.getD (i - 16) 0)])
    []

/-- One SHA-256 round on the eight-word state. -/
def roundStep (w : List Nat) (st : List Nat) (i : Nat) : List Nat :=
  match st with
  | [a, b, c, d, e, f, g, h] =>
    let t1 := w32 (h + bSig1 e + chF e f g + sha256K.getD i 0 + w.getD i 0)
    let t2 := w32 (bSig0 a + majF a b c)
    [w32 (t1 + t2), a, b, c, w32 (d + t1), e, f, g]
  | _ => st

/-- Compression of one 64-byte block into the running hash. -/
def sha256Compress (hs : List Nat) (block : List Nat) : List Nat :=
  let w := schedule64 (toWordsBE block)
  let st := (List.range 64).foldl (roundStep w) hs
  (hs.zip st).map (fun p => w32 (p.1 + p.2))

/-- SHA-256 padding: `0x80`, zeros, 64-bit big-endian bit length. -/
def sha256Pad (msg : List Nat) : List Nat :=
  msg ++ [128] ++ List.replicate ((119 - msg.length % 64) % 64) 0 ++
    natToBEBytes 8 (msg.length * 8)

/-- Fuel-indexed split into 64-byte blocks (fuel bounds the number of blocks). -/
def chunks64 : Nat → List Nat → List (List Nat)
  | 0, _ => []
  | _, [] => []
  | fuel + 1, x :: xs => (x :: xs).take 64 :: chunks64 fuel ((x :: xs).drop 64)

/-- SHA-256 of a byte list, as a 32-byte list. -/
def sha256Bytes (msg : List Nat) : List Nat :=
  let blocks := chunks64 (msg.length + 1) (sha256Pad msg)
  (blocks.foldl sha256Compress sha256H0).foldr (fun h acc => natToBEBytes 4 h ++ acc) []

/-- HMAC-SHA256 (RFC 2104) of `msg` under `key`, as a 32-byte list. -/
def hmacSha256 (key msg : List Nat) : List Nat :=
  let key0 := if key.length > 64 then sha256Bytes key else key
  let kpad := key0 ++ List.replicate (64 - key0.length) 0
  let ipad := kpad.map (fun b => b ^^^ 54)
  let opad := kpad.map (fun b => b ^^^ 92)
  sha256Bytes (opad ++ sha256Bytes (ipad ++ msg))

/-! ## Configuration

One field per environment variable read at startup (lines 18-37 of the source);
`defaultConfig` holds the hard-coded defaults. -/

structure Config where
  WEBHOOK_SECRET : String
  DOCKER_REGISTRY : String
  DOCKER_IMAGE_NAME : String
  DEV_CONTAINER_NAME : String
  DEV_HOST_PORT : String
  DEV_CONTAINER_PORT : String
  DEV_IMAGE_TAG : String
  NODE_ENV_DEV : String
  PROD_CONTAINER_NAME : String
  PROD_HOST_PORT : String
  PROD_CONTAINER_PORT : String
  PROD_IMAGE_TAG : String
  NODE_ENV_PROD : String

/-- The default configuration values from the source. -/
def defaultConfig : Config :=
  ⟨"your-secret-key-here", "patabudlong", "tripbundles-website",
   "tripbundles-dev", "3001", "3000", "latest-dev", "development",
   "tripbundles-prod", "3000", "3000", "latest", "production"⟩

/-! ## Python string helpers -/

/-- Accumulator pass of Python `str.split(sep)` over the character list. -/
def splitAux (sep : Char) : List Char → List Char → List (List Char)
  | [], acc => [acc.reverse]
  | c :: cs, acc =>
    if c = sep then acc.reverse :: splitAux sep cs [] else splitAux sep cs (c :: acc)

/-- Python `s.split(sep)` for a one-character separator. -/
def pySplit (s : String) (sep : Char) : List String :=
  (splitAux sep s.data []).map (fun l => ⟨l⟩)

/-- Consume `pat` off the front of a character list. -/
def dropPat : List Char → List Char → Option (List Char)
  | [], l => some l
  | _ :: _, [] => none
  | p :: ps, c :: cs => if c = p then dropPat ps cs else none

/-- Substring test (Python `needle in haystack` on strings). -/
def listHasPat (pat : List Char) : List Char → Bool
  | [] => pat.isEmpty
  | c :: cs => (dropPat pat (c :: cs)).isSome || listHasPat pat cs

/-- Fuel-indexed body of Python `s.replace(pat, '')`: left-to-right,
non-overlapping deletion of every occurrence of `pat`. -/
def replaceAux (pat : List Char) : Nat → List Char → List Char
  | 0, l => l
  | _ + 1, [] => []
  | fuel + 1, c :: cs =>
    match dropPat pat (c :: cs) with
    | some rest => replaceAux pat fuel rest
    | none => c :: replaceAux pat fuel cs

/-- Python `s.replace(pat, '')`. -/
def pyReplaceDel (s pat : String) : String :=
  ⟨replaceAux pat.data s.data.length s.data⟩

/-- All characters are ASCII; `hmac.compare_digest` on `str` arguments raises
`TypeError` unless both are ASCII-only. -/
def isAsciiStr (s : String) : Bool := s.data.all (fun c => decide (c.toNat < 128))

/-- Uppercase one ASCII letter. -/
def upChar (c : Char) : Char :=
  if 'a' ≤ c ∧ c ≤ 'z' then Char.ofNat (c.toNat - 32) else c

/-- Lowercase one ASCII letter. -/
def lowChar (c : Char) : Char :=
  if 'A' ≤ c ∧ c ≤ 'Z' then Char.ofNat (c.toNat + 32) else c

/-- ASCII uppercasing of a string. -/
def strUp (s : String) : String := ⟨s.data.map upChar⟩

/-- ASCII lowercasing of a string. -/
def strLow (s : String) : String := ⟨s.data.map lowChar⟩

/-! ## The signature verifier (source lines 64-74) -/

/-- Hex digest of HMAC-SHA256 of `body` under the configured secret, exactly
`hmac.new(WEBHOOK_SECRET.encode(), payload_body, hashlib.sha256).hexdigest()`. -/
def hmacHexDigest (cfg : Config) (body : List Nat) : String :=
  hexDigestOfBytes (hmacSha256 (utf8Encode cfg.WEBHOOK_SECRET) body)

/-- `verify_signature(payload_body, signature_header)`.

`none` models an absent header; Python's `if not signature_header` is true for
both `None` and `""`.  `.error ()` models a raised exception: the
`sha_name, signature = signature_header.split('=')` unpacking raises
`ValueError` unless the split has exactly two parts, and
`hmac.compare_digest(mac.hexdigest(), signature)` raises `TypeError` when the
`str` argument `signature` is not ASCII-only. -/
def verify_signature (cfg : Config) (payload_body : List Nat)
    (signature_header : Option String) : Except Unit Bool :=
  match signature_header with
  | none => .ok false
  | some s =>
    if s = "" then .ok false
    else
      match pySplit s '=' with
      | [sha_name, signature] =>
        if sha_name = "sha256" then
          if isAsciiStr signature then
            .ok (hmacHexDigest cfg payload_body == signature)
          else .error ()
        else .ok false
      | _ => .error ()

/-! ## JSON payloads

A minimal model of the parsed request body: `null`, strings, integers and
objects.  JSON arrays are not modelled; no claim exercises them.  In the
handler an `Option Json` of `none` stands for a request body on which
`request.get_json()` raises (malformed or missing JSON). -/

inductive Json where
  | null
  | str (s : String)
  | num (n : Int)
  | obj (fields : List (String × Json))

/-- First-match field lookup in an object (Python dict keys are unique). -/
def lookupField : List (String × Json) → String → Option Json
  | [], _ => none
  | (k, v) :: rest, key => if k = key then some v else lookupField rest key

/-- Python `key in payload`: key membership on a dict, substring test on a
string, `TypeError` on `None` or a number. -/
def pyContains (payload : Json) (key : String) : Except Unit Bool :=
  match payload with
  | .obj fields => .ok (lookupField fields key).isSome
  | .str s => .ok (listHasPat key.data s.data)
  | _ => .error ()

/-- Python `payload.get(key, dflt)`: `AttributeError` on anything but a dict. -/
def pyGetD (payload : Json) (key : String) (dflt : Json) : Except Unit Json :=
  match payload with
  | .obj fields => .ok ((lookupField fields key).getD dflt)
  | _ => .error ()

/-- Python `payload[key]`: `KeyError` when absent, `TypeError` on a non-dict. -/
def pyIndex (payload : Json) (key : String) : Except Unit Json :=
  match payload with
  | .obj fields =>
    match lookupField fields key with
    | some v => .ok v
    | none => .error ()
  | _ => .error ()

/-- Python `str(...)` as used in the handler's f-strings.  Dict rendering is
abstracted to `"dict"`; every claim only interpolates string values. -/
def pyStr : Json → String
  | .null => "None"
  | .str s => s
  | .num n => toString n
  | .obj _ => "dict"

/-- Python `tag == "s"` where `tag` came from JSON: equal only when `tag` is
the string `s` (Python `==` between a non-string and a string is `False`). -/
def jsonIsStr (j : Json) (s : String) : Bool :=
  match j with
  | .str t => t == s
  | _ => false

/-- Truthiness of an optional header string (`if github_event:`). -/
def truthy : Option String → Bool
  | none => false
  | some s => !(s == "")

/-! ## Runtime commands and the deployment executors

A runtime call is the argv list handed to `subprocess.run`; the abstract
runtime `docker : List String → Bool` reports whether that call succeeded
(exit status 0).  Each executor returns the Python function's boolean result
together with the argv lists issued, in issue order. -/

/-- `docker pull <image>`. -/
def pullCmd (image : String) : List String := ["docker", "pull", image]

/-- `docker stop <name>`. -/
def stopCmd (name : String) : List String := ["docker", "stop", name]

/-- `docker rm <name>`. -/
def rmCmd (name : String) : List String := ["docker", "rm", name]

/-- The development image reference built in `update_container`. -/
def devImage (cfg : Config) : String :=
  cfg.DOCKER_REGISTRY ++ "/" ++ cfg.DOCKER_IMAGE_NAME ++ ":" ++ cfg.DEV_IMAGE_TAG

/-- The production image reference built in `update_container`. -/
def prodImage (cfg : Config) : String :=
  cfg.DOCKER_REGISTRY ++ "/" ++ cfg.DOCKER_IMAGE_NAME ++ ":" ++ cfg.PROD_IMAGE_TAG

/-- The `docker run` argv of the development branch of `update_container`
(source lines 93-101). -/
def devRunCmd (cfg : Config) : List String :=
  ["docker", "run", "-d", "--name", cfg.DEV_CONTAINER_NAME,
   "-p", cfg.DEV_HOST_PORT ++ ":" ++ cfg.DEV_CONTAINER_PORT,
   "-e", "NODE_ENV=" ++ cfg.NODE_ENV_DEV,
   "-e", "PORT=" ++ cfg.DEV_CONTAINER_PORT,
   "--restart", "unless-stopped", devImage cfg]

/-- The `docker run` argv of the production branch of `update_container`
(source lines 120-128). -/
def prodRunCmd (cfg : Config) : List String :=
  ["docker", "run", "-d", "--name", cfg.PROD_CONTAINER_NAME,
   "-p", cfg.PROD_HOST_PORT ++ ":" ++ cfg.PROD_CONTAINER_PORT,
   "-e", "NODE_ENV=" ++ cfg.NODE_ENV_PROD,
   "-e", "PORT=" ++ cfg.PROD_CONTAINER_PORT,
   "--restart", "unless-stopped", prodImage cfg]

/-- The `docker run` argv built in `deploy_container` (source lines 168-174):
no `PORT` environment variable and no `--restart` flag. -/
def hubRunCmd (container_name image_name host_port container_port node_env : String) :
    List String :=
  ["docker", "run", "-d", "--name", container_name,
   "-p", host_port ++ ":" ++ container_port,
   "-e", "NODE_ENV=" ++ node_env, image_name]

/-- The common pull / stop / rm / run sequence of both executors.  The pull is
run with `check=True`: its failure raises, the enclosing `except` returns
`False`, and nothing further is issued.  `stop` and `rm` are `check=False`
(best effort).  The final run is `check=True`: its failure yields `False`. -/
def runSeq (docker : List String → Bool) (image_name container_name : String)
    (runC : List String) : Bool × List (List String) :=
  if docker (pullCmd image_name) then
    (docker runC, [pullCmd image_name, stopCmd container_name, rmCmd container_name, runC])
  else (false, [pullCmd image_name])

/-- `update_container(branch)` (source lines 76-142). -/
def update_container (cfg : Config) (docker : List String → Bool) (branch : String) :
    Bool × List (List String) :=
  if branch = "develop" then
    runSeq docker (devImage cfg) cfg.DEV_CONTAINER_NAME (devRunCmd cfg)
  else if branch = "master" then
    runSeq docker (prodImage cfg) cfg.PROD_CONTAINER_NAME (prodRunCmd cfg)
  else (false, [])

/-- `deploy_container(environment, container_name, image_name, host_port,
container_port, node_env)` (source lines 144-190).  `environment` is only
logged. -/
def deploy_container (environment container_name image_name host_port
    container_port node_env : String) (docker : List String → Bool) :
    Bool × List (List String) :=
  runSeq docker image_name container_name
    (hubRunCmd container_name image_name host_port container_port node_env)

/-! ## The webhook handler (source lines 192-266) -/

/-- Status code, JSON response body, and the runtime argvs issued while
handling one request. -/
structure Outcome where
  status : Nat
  body : Json
  calls : List (List String)

/-- The catch-all response of the handler's `except` clause. -/
def internalError : Outcome :=
  ⟨500, .obj [("error", .str "Internal server error")], []⟩

/-- `payload['repository']['repo_name']` (source line 228). -/
def repoNameLookup (payload : Json) : Except Unit Json :=
  match pyIndex payload "repository" with
  | .error e => .error e
  | .ok r => pyIndex r "repo_name"

/-- `payload['push_data']['tag']` (source line 229). -/
def tagLookup (payload : Json) : Except Unit Json :=
  match pyIndex payload "push_data" with
  | .error e => .error e
  | .ok d => pyIndex d "tag"

/-- The image reference built for a Docker Hub deployment (source line 251). -/
def hubImage (cfg : Config) (tagStr : String) : String :=
  cfg.DOCKER_REGISTRY ++ "/" ++ cfg.DOCKER_IMAGE_NAME ++ ":" ++ tagStr

/-- Tag routing of the Docker Hub path (source lines 233-259): the literals
`'latest-dev'` and `'latest'` select the environment; the result of
`deploy_container` is discarded and a 200 response is returned. -/
def routeTag (cfg : Config) (tag : Json) (docker : List String → Bool) : Outcome :=
  if jsonIsStr tag "latest-dev" then
    let res := deploy_container "development" cfg.DEV_CONTAINER_NAME
      (hubImage cfg (pyStr tag)) cfg.DEV_HOST_PORT cfg.DEV_CONTAINER_PORT
      cfg.NODE_ENV_DEV docker
    ⟨200, .obj [("status", .str "success"),
                ("message", .str "Deployment completed for development"),
                ("tag", tag), ("environment", .str "development")], res.2⟩
  else if jsonIsStr tag "latest" then
    let res := deploy_container "production" cfg.PROD_CONTAINER_NAME
      (hubImage cfg (pyStr tag)) cfg.PROD_HOST_PORT cfg.PROD_CONTAINER_PORT
      cfg.NODE_ENV_PROD docker
    ⟨200, .obj [("status", .str "success"),
                ("message", .str "Deployment completed for production"),
                ("tag", tag), ("environment", .str "production")], res.2⟩
  else
    ⟨200, .obj [("status", .str "ignored"),
                ("message", .str ("Tag " ++ pyStr tag ++ " not configured"))], []⟩

/-- The Docker Hub branch of the handler (source lines 222-262), `.error ()`
when the Python code would raise inside it. -/
def dockerHubPath (cfg : Config) (payload : Json) (docker : List String → Bool) :
    Except Unit Outcome :=
  match pyContains payload "push_data" with
  | .error e => .error e
  | .ok hasPd =>
    if hasPd then
      match pyContains payload "repository" with
      | .error e => .error e
      | .ok hasRepo =>
        if hasRepo then
          match repoNameLookup payload with
          | .error e => .error e
          | .ok _repoName =>
            match tagLookup payload with
            | .error e => .error e
            | .ok tag => .ok (routeTag cfg tag docker)
        else .ok ⟨400, .obj [("error", .str "Unknown webhook format")], []⟩
    else .ok ⟨400, .obj [("error", .str "Unknown webhook format")], []⟩

/-- `handle_webhook()` (source lines 192-266).

`github_event` is the `X-GitHub-Event` header, `signature_header` the
`X-Hub-Signature-256` header, `body` the parsed JSON body (`none` when
`request.get_json()` raises).  The source never reads the signature header:
`verify_signature` is defined but never called, so `signature_header` is an
unused argument of this embedding exactly as it is unused by the code.  Every
exception raised inside the `try` is answered by the catch-all 500. -/
def handle_webhook (cfg : Config) (github_event signature_header : Option String)
    (body : Option Json) (docker : List String → Bool) : Outcome :=
  match body with
  | none => internalError
  | some payload =>
    if truthy github_event then
      let ev := github_event.getD ""
      if ev ≠ "push" then
        ⟨200, .obj [("status", .str "ignored"),
                    ("message", .str ("Event " ++ ev ++ " not supported"))], []⟩
      else
        match pyGetD payload "ref" (.str "") with
        | .ok (.str ref) =>
          let branch := pyReplaceDel ref "refs/heads/"
          let res := update_container cfg docker branch
          if res.1 then
            ⟨200, .obj [("message", .str ("Deployment triggered for " ++ branch))], res.2⟩
          else
            ⟨500, .obj [("error", .str ("Deployment failed for " ++ branch))], res.2⟩
        | .ok _ => internalError
        | .error _ => internalError
    else
      match dockerHubPath cfg payload docker with
      | .ok r => r
      | .error _ => internalError

/-! ## Command classifiers and fixtures used by the claims -/

/-- Is this argv a `docker pull`? -/
def isPullCall (c : List String) : Bool := c.take 2 == ["docker", "pull"]

/-- Is this argv a `docker stop` or `docker rm`? -/
def isStopRmCall (c : List String) : Bool :=
  (c.take 2 == ["docker", "stop"]) || (c.take 2 == ["docker", "rm"])

/-- A configuration whose image tags are overridden away from the defaults. -/
def customTagConfig : Config :=
  ⟨"your-secret-key-here", "patabudlong", "tripbundles-website",
   "tripbundles-dev", "3001", "3000", "custom-dev", "development",
   "tripbundles-prod", "3000", "3000", "prod-v2", "production"⟩

/-- A GitHub push payload for the `master` branch. -/
def masterPayload : Json := .obj [("ref", .str "refs/heads/master")]

/-- The raw bytes of the `master` push body, as signed by a sender. -/
def rawMasterBody : List Nat :=
  utf8Encode "\x7b\"ref\": \"refs/heads/master\"\x7d"

/-- A Docker Hub push payload with the given repository name and tag. -/
def hubPayload (repoName tag : String) : Json :=
  .obj [("push_data", .obj [("tag", .str tag)]),
        ("repository", .obj [("repo_name", .str repoName)])]

/-! ## Helper lemmas -/

theorem hexChar_toNat_lt (n : Nat) : (hexChar n).toNat < 128 := by
  unfold hexChar; split <;> decide

theorem hexChar_ne_eqChar (n : Nat) : hexChar n ≠ '=' := by
  unfold hexChar; split <;> decide

theorem hexOfBytes_cons (b : Nat) (bs : List Nat) :
    hexOfBytes (b :: bs) = hexChar (b / 16 % 16) :: hexChar (b % 16) :: hexOfBytes bs := rfl

theorem hexOfBytes_ascii (bs : List Nat) :
    (hexOfBytes bs).all (fun c => decide (c.toNat < 128)) = true := by
  induction bs with
  | nil => rfl
  | cons b bs ih =>
    rw [hexOfBytes_cons]
    simp only [List.all_cons, ih, Bool.and_true, Bool.and_eq_true, decide_eq_true_eq]
    exact ⟨hexChar_toNat_lt _, hexChar_toNat_lt _⟩

theorem eqChar_not_mem_hexOfBytes (bs : List Nat) : '=' ∉ hexOfBytes bs := by
  induction bs with
  | nil => simp [hexOfBytes]
  | cons b bs ih =>
    rw [hexOfBytes_cons]
    intro h
    rw [List.mem_cons, List.mem_cons] at h
    rcases h with h | h | h
    · exact hexChar_ne_eqChar _ h.symm
    · exact hexChar_ne_eqChar _ h.symm
    · exact ih h

theorem isAsciiStr_hmacHexDigest (cfg : Config) (body : List Nat) :
    isAsciiStr (hmacHexDigest cfg body) = true :=
  hexOfBytes_ascii _

theorem count_eqChar_hmacHexDigest (cfg : Config) (body : List Nat) :
    (hmacHexDigest cfg body).data.count '=' = 0 :=
  List.count_eq_zero.mpr (eqChar_not_mem_hexOfBytes _)

theorem splitAux_length (sep : Char) :
    ∀ (l acc : List Char), (splitAux sep l acc).length = l.count sep + 1 := by
  intro l
  induction l with
  | nil => intro acc; simp [splitAux]
  | cons c cs ih =>
    intro acc
    by_cases h : c = sep
    · subst h
      simp [splitAux, ih, List.count_cons_self]
    · rw [List.count_cons_of_ne (by exact fun hx => h hx.symm)]
      simp [splitAux, h, ih]

theorem splitAux_of_count_zero (sep : Char) :
    ∀ (l acc : List Char), l.count sep = 0 → splitAux sep l acc = [acc.reverse ++ l] := by
  intro l
  induction l with
  | nil => intro acc _; simp [splitAux]
  | cons c cs ih =>
    intro acc h
    have hc : c ≠ sep := by
      intro hcs; subst hcs; simp [List.count_cons_self] at h
    have hcs : cs.count sep = 0 := by
      rwa [List.count_cons_of_ne (by exact fun hx => hc hx.symm)] at h
    simp [splitAux, hc, ih _ hcs, List.append_assoc]

theorem string_mk_data (s : String) : (⟨s.data⟩ : String) = s := by
  cases s; rfl

theorem verify_signature_some (cfg : Config) (body : List Nat) (s : String)
    (hs : s ≠ "") :
    verify_signature cfg body (some s) =
      match pySplit s '=' with
      | [sha_name, signature] =>
        if sha_name = "sha256" then
          if isAsciiStr signature then .ok (hmacHexDigest cfg body == signature)
          else .error ()
        else .ok false
      | _ => .error () := by
  have h : verify_signature cfg body (some s) =
      if s = "" then Except.ok false
      else
        match pySplit s '=' with
        | [sha_name, signature] =>
          if sha_name = "sha256" then
            if isAsciiStr signature then .ok (hmacHexDigest cfg body == signature)
            else .error ()
          else .ok false
        | _ => .error () := rfl
  rw [h, if_neg hs]

theorem isPullCall_pullCmd (img : String) : isPullCall (pullCmd img) = true := rfl

theorem isStopRmCall_pullCmd (img : String) : isStopRmCall (pullCmd img) = false := rfl

theorem runSeq_guard (docker : List String → Bool) (img cn : String) (runC : List String) :
    (∀ c ∈ (runSeq docker img cn runC).2, isStopRmCall c = true →
      ∃ p, (runSeq docker img cn runC).2.head? = some p ∧
        isPullCall p = true ∧ docker p = true) ∧
    (∀ p, (runSeq docker img cn runC).2.head? = some p → isPullCall p = true →
      docker p = false → runSeq docker img cn runC = (false, [pullCmd img])) := by
  by_cases hp : docker (pullCmd img)
  · constructor
    · intro c _ _
      refine ⟨pullCmd img, ?_, isPullCall_pullCmd img, hp⟩
      simp [runSeq, hp]
    · intro p hhead _ hfail
      simp [runSeq, hp] at hhead
      subst hhead
      rw [hp] at hfail
      exact absurd hfail (by simp)
  · have hp' : docker (pullCmd img) = false := by
      exact Bool.not_eq_true _ ▸ (by simpa using hp)
    constructor
    · intro c hc hsr
      simp [runSeq, hp'] at hc
      subst hc
      rw [isStopRmCall_pullCmd] at hsr
      exact absurd hsr (by simp)
    · intro p _ _ _
      simp [runSeq, hp']

theorem runSeq_head_eq (docker : List String → Bool) (img cn : String)
    (runC : List String) (p : List String)
    (h : (runSeq docker img cn runC).2.head? = some p) : p = pullCmd img := by
  by_cases hp : docker (pullCmd img) <;> simp [runSeq, hp] at h <;> exact h.symm

theorem pySplit_empty : pySplit "" '=' = [""] := rfl

/-- Claim C2 (confirmed): in every execution of a deployment sequence — both
`update_container` and `deploy_container` — a `docker stop` or `docker rm`
call appears in the issued-call trace only when the first issued call was the
image pull and that pull succeeded; and whenever the pull fails, the executor
reports `false` and the trace consists of the pull alone, so the pre-existing
container is untouched. -/
theorem c2_stop_rm_only_after_successful_pull (cfg : Config)
    (docker : List String → Bool) (branch env cn img hp' cp ne : String) :
    ((∀ c ∈ (update_container cfg docker branch).2, isStopRmCall c = true →
        ∃ p, (update_container cfg docker branch).2.head? = some p ∧
          isPullCall p = true ∧ docker p = true) ∧
      (∀ p, (update_container cfg docker branch).2.head? = some p →
        isPullCall p = true → docker p = false →
        update_container cfg docker branch = (false, [p]))) ∧
    ((∀ c ∈ (deploy_container env cn img hp' cp ne docker).2, isStopRmCall c = true →
        ∃ p, (deploy_container env cn img hp' cp ne docker).2.head? = some p ∧
          isPullCall p = true ∧ docker p = true) ∧
      (∀ p, (deploy_container env cn img hp' cp ne docker).2.head? = some p →
        isPullCall p = true → docker p = false →
        deploy_container env cn img hp' cp ne docker = (false, [p]))) := by
  constructor
  · by_cases hb1 : branch = "develop"
    · have heq : update_container cfg docker branch =
          runSeq docker (devImage cfg) cfg.DEV_CONTAINER_NAME (devRunCmd cfg) := by
        simp [update_container, hb1]
      rw [heq]
      constructor
      · exact (runSeq_guard docker (devImage cfg) _ _).1
      · intro p hhead hpc hfail
        have hpeq := runSeq_head_eq docker (devImage cfg) _ _ p hhead
        subst hpeq
        exact (runSeq_guard docker (devImage cfg) _ _).2 _ hhead hpc hfail
    · by_cases hb2 : branch = "master"
      · have heq : update_container cfg docker branch =
            runSeq docker (prodImage cfg) cfg.PROD_CONTAINER_NAME (prodRunCmd cfg) := by
          simp [update_container, hb1, hb2]
        rw [heq]
        constructor
        · exact (runSeq_guard docker (prodImage cfg) _ _).1
        · intro p hhead hpc hfail
          have hpeq := runSeq_head_eq docker (prodImage cfg) _ _ p hhead
          subst hpeq
          exact (runSeq_guard docker (prodImage cfg) _ _).2 _ hhead hpc hfail
      · have heq : update_container cfg docker branch = (false, []) := by
          simp [update_container, hb1, hb2]
        rw [heq]
        constructor
        · intro c hc
          simp at hc
        · intro p hhead
          simp at hhead
  · constructor
    · exact (runSeq_guard docker img cn _).1
    · intro p hhead hpc hfail
      have hpeq := runSeq_head_eq docker img cn _ p hhead
      subst hpeq
      exact (runSeq_guard docker img cn _).2 _ hhead hpc hfail

/-- Witness for C2: with a runtime in which every call fails, the development
deployment issues only the pull and reports failure. -/
theorem c2_stop_rm_only_after_successful_pull_witness :
    update_container defaultConfig (fun _ => false) "develop" =
      (false, [pullCmd (devImage defaultConfig)]) :=
  (c2_stop_rm_only_after_successful_pull defaultConfig (fun _ => false)
    "develop" "" "" "" "" "" "").1.2 (pullCmd (devImage defaultConfig)) rfl rfl rfl

/-- Counterexample to claim C3: a non-empty signature header containing no
`'='` makes `verify_signature` raise (`ValueError` from the tuple unpacking of
`signature_header.split('=')`) instead of returning a boolean. -/
theorem c3_counterexample_split_raises :
    verify_signature defaultConfig [] (some "sha256") = .error () := rfl

/-- Claim C3 as amended: `verify_signature` returns `false` when the header is
absent or empty, and — provided the header splits at `'='` into exactly two
parts — returns `false` when the algorithm prefix is not `sha256` and
otherwise returns the boolean digest comparison (raising only on a non-ASCII
digest part, where `hmac.compare_digest` raises `TypeError`); it raises
`ValueError` whenever a non-empty header does not split into exactly two
parts. -/
theorem c3_amended_total_behaviour (cfg : Config) (body : List Nat)
    (header : Option String) :
    (header = none → verify_signature cfg body header = .ok false) ∧
    (header = some "" → verify_signature cfg body header = .ok false) ∧
    (∀ s a b, header = some s → pySplit s '=' = [a, b] → a ≠ "sha256" →
      verify_signature cfg body header = .ok false) ∧
    (∀ s b, header = some s → pySplit s '=' = ["sha256", b] → isAsciiStr b = true →
      verify_signature cfg body header = .ok (hmacHexDigest cfg body == b)) ∧
    (∀ s b, header = some s → pySplit s '=' = ["sha256", b] → isAsciiStr b = false →
      verify_signature cfg body header = .error ()) ∧
    (∀ s, header = some s → s ≠ "" → (pySplit s '=').length ≠ 2 →
      verify_signature cfg body header = .error ()) := by
  refine ⟨?_, ?_, ?_, ?_, ?_, ?_⟩
  · intro h; subst h; rfl
  · intro h; subst h; rfl
  · intro s a b hh hsp ha
    subst hh
    by_cases hs : s = ""
    · subst hs; rw [pySplit_empty] at hsp; simp at hsp
    · rw [verify_signature_some cfg body s hs, hsp]
      simp [ha]
  · intro s b hh hsp hA
    subst hh
    by_cases hs : s = ""
    · subst hs; rw [pySplit_empty] at hsp; simp at hsp
    · rw [verify_signature_some cfg body s hs, hsp]
      simp [hA]
  · intro s b hh hsp hA
    subst hh
    by_cases hs : s = ""
    · subst hs; rw [pySplit_empty] at hsp; simp at hsp
    · rw [verify_signature_some cfg body s hs, hsp]
      simp [hA]
  · intro s hh hs hlen
    subst hh
    rw [verify_signature_some cfg body s hs]
    rcases h : pySplit s '=' with _ | ⟨a, _ | ⟨b, _ | ⟨c, t⟩⟩⟩
    · rfl
    · rfl
    · rw [h] at hlen; simp at hlen
    · rfl

/-- Witness for the amended C3: a well-formed header with a non-`sha256`
prefix yields `false` without raising. -/
theorem c3_amended_total_behaviour_witness :
    verify_signature defaultConfig [] (some "md5=abc") = .ok false :=
  (c3_amended_total_behaviour defaultConfig [] (some "md5=abc")).2.2.1
    "md5=abc" "md5" "abc" rfl rfl (by decide)

/-- Counterexample to claim C4: the uppercase-hex rendering of the correct
HMAC-SHA256 digest is equal to it case-insensitively, yet `verify_signature`
rejects it — `hmac.compare_digest(mac.hexdigest(), signature)` compares the
exact strings, and `hexdigest()` is lowercase. -/
theorem c4_counterexample_uppercase_rejected :
    strLow (strUp (hmacHexDigest defaultConfig [])) = hmacHexDigest defaultConfig [] ∧
    verify_signature defaultConfig []
      (some ("sha256=" ++ strUp (hmacHexDigest defaultConfig []))) = .ok false := by
  constructor
  · rfl
  · rfl

/-- Claim C4 as amended: for every configuration (hence every secret), body
and digest string, `verify_signature(body, 'sha256=' + digest)` returns `true`
exactly when `digest` is the lowercase hex HMAC-SHA256 of the body under the
configured secret, compared case-SENSITIVELY (it never returns `true` on any
other string, and a digest containing `'='` or non-ASCII characters makes it
raise rather than succeed). -/
theorem c4_amended_exact_digest_match (cfg : Config) (body : List Nat)
    (digest : String) :
    verify_signature cfg body (some ("sha256=" ++ digest)) = .ok true ↔
      digest = hmacHexDigest cfg body := by
  have hdata : ("sha256=" ++ digest).data
      = 's' :: 'h' :: 'a' :: '2' :: '5' :: '6' :: '=' :: digest.data := by
    cases digest
    rfl
  have hne : ("sha256=" ++ digest) ≠ "" := by
    intro h
    have h' := congrArg String.data h
    rw [hdata] at h'
    simp at h'
  have hsplit : pySplit ("sha256=" ++ digest) '=' =
      "sha256" :: (splitAux '=' digest.data []).map (fun l => (⟨l⟩ : String)) := by
    unfold pySplit
    rw [hdata]
    rfl
  rw [verify_signature_some cfg body _ hne, hsplit]
  rcases Nat.eq_zero_or_pos (digest.data.count '=') with hzero | hpos
  · have h0 : splitAux '=' digest.data [] = [digest.data] := by
      simpa using splitAux_of_count_zero '=' digest.data [] hzero
    rw [h0]
    simp only [List.map_cons, List.map_nil, string_mk_data digest]
    by_cases hA : isAsciiStr digest
    · simp only [hA, if_pos rfl, if_true]
      constructor
      · intro h
        exact (eq_of_beq (Except.ok.inj h)).symm
      · intro h
        rw [h]
        simp
    · rw [Bool.not_eq_true] at hA
      simp only [hA]
      constructor
      · intro h
        simp at h
      · intro h
        have hmac := isAsciiStr_hmacHexDigest cfg body
        rw [← h, hA] at hmac
        exact absurd hmac (by simp)
  · have hlen := splitAux_length '=' digest.data []
    rcases hsp : splitAux '=' digest.data [] with _ | ⟨x, _ | ⟨y, rest⟩⟩
    · rw [hsp] at hlen
      simp at hlen
    · rw [hsp] at hlen
      simp at hlen
      omega
    · simp only [List.map_cons]
      constructor
      · intro h
        simp at h
      · intro h
        have hc := count_eqChar_hmacHexDigest cfg body
        rw [← h] at hc
        omega

/-- Witness for the amended C4: the genuine lowercase digest is accepted. -/
theorem c4_amended_exact_digest_match_witness :
    verify_signature defaultConfig []
      (some ("sha256=" ++ hmacHexDigest defaultConfig [])) = .ok true :=
  (c4_amended_exact_digest_match defaultConfig [] (hmacHexDigest defaultConfig [])).mpr rfl

/-- Claim C1 (code bug): `handle_webhook` never calls `verify_signature` —
the verifier is defined but dead code.  Concretely: for a POST whose
`X-Hub-Signature-256` header is sixty-four zeros (which `verify_signature`
itself rejects for the raw body), the handler still runs the full production
deployment (pull, stop, rm, run are all issued) and answers
`200 Deployment triggered for master` instead of the claimed
`401 Invalid signature` with no runtime calls. -/
theorem c1_handler_skips_signature_check :
    verify_signature defaultConfig rawMasterBody
      (some "sha256=0000000000000000000000000000000000000000000000000000000000000000")
      = .ok false ∧
    handle_webhook defaultConfig (some "push")
      (some "sha256=0000000000000000000000000000000000000000000000000000000000000000")
      (some masterPayload) (fun _ => true) =
      ⟨200, .obj [("message", .str "Deployment triggered for master")],
        [pullCmd (prodImage defaultConfig), stopCmd "tripbundles-prod",
         rmCmd "tripbundles-prod", prodRunCmd defaultConfig]⟩ := by
  constructor
  · rfl
  · rfl

/-- Counterexample to claim C8: a malformed or missing JSON body — one on
which `request.get_json()` raises — is answered by the handler's catch-all
with a 500, not a client error or a 200. -/
theorem c8_counterexample_malformed_body_500 :
    handle_webhook defaultConfig none none none (fun _ => true) =
      ⟨500, .obj [("error", .str "Internal server error")], []⟩ := rfl

/-- Claim C8 as amended: for every configuration, header combination and
runtime, a malformed or missing JSON body makes `request.get_json()` raise
inside the handler's `try`; the catch-all converts this into a
500 `Internal server error` response, and no runtime call is issued.  (The
classifier is never reached, and the response is a server error, not a client
error or 200.) -/
theorem c8_amended_malformed_body_internal_error (cfg : Config)
    (gh sig : Option String) (docker : List String → Bool) :
    handle_webhook cfg gh sig none docker =
      ⟨500, .obj [("error", .str "Internal server error")], []⟩ := rfl

theorem handle_webhook_push_reduce (cfg : Config) (sig : Option String)
    (payload : Json) (docker : List String → Bool) :
    handle_webhook cfg (some "push") sig (some payload) docker =
      match pyGetD payload "ref" (.str "") with
      | .ok (.str ref) =>
        let branch := pyReplaceDel ref "refs/heads/"
        let res := update_container cfg docker branch
        if res.1 then
          ⟨200, .obj [("message", .str ("Deployment triggered for " ++ branch))], res.2⟩
        else
          ⟨500, .obj [("error", .str ("Deployment failed for " ++ branch))], res.2⟩
      | .ok _ => internalError
      | .error _ => internalError := rfl

/-- Counterexample to claim C5: a push to a branch that is neither `develop`
nor `master` is answered with a 500 error response (`update_container`
returns `False` for unknown branches and the handler maps every `False` to
500 `Deployment failed`), not with a 200 Ignored response as claimed. -/
theorem c5_counterexample_feature_branch_500 :
    handle_webhook defaultConfig (some "push") none
      (some (.obj [("ref", .str "refs/heads/feature/x")])) (fun _ => true) =
      ⟨500, .obj [("error", .str "Deployment failed for feature/x")], []⟩ := rfl

/-- Claim C5 as amended: a source-control push whose branch is neither
`develop` nor `master` performs no deployment (no runtime call is issued),
but the response is 500 with body `error: Deployment failed for <branch>` —
an error response, not a 200 Ignored response. -/
theorem c5_amended_other_branch_500_no_deploy (cfg : Config)
    (docker : List String → Bool) (sig : Option String) (payload : Json)
    (ref : String)
    (href : pyGetD payload "ref" (.str "") = .ok (.str ref))
    (h1 : pyReplaceDel ref "refs/heads/" ≠ "develop")
    (h2 : pyReplaceDel ref "refs/heads/" ≠ "master") :
    handle_webhook cfg (some "push") sig (some payload) docker =
      ⟨500, .obj [("error",
        .str ("Deployment failed for " ++ pyReplaceDel ref "refs/heads/"))], []⟩ := by
  have hupd : update_container cfg docker (pyReplaceDel ref "refs/heads/") = (false, []) := by
    simp [update_container, h1, h2]
  rw [handle_webhook_push_reduce, href]
  simp [hupd]

/-- Witness for the amended C5: the branch `MASTER` (wrong case) yields the
500 error response with no runtime calls. -/
theorem c5_amended_other_branch_500_no_deploy_witness :
    handle_webhook defaultConfig (some "push") none
      (some (.obj [("ref", .str "refs/heads/MASTER")])) (fun _ => true) =
      ⟨500, .obj [("error",
        .str ("Deployment failed for " ++ pyReplaceDel "refs/heads/MASTER" "refs/heads/"))], []⟩ :=
  c5_amended_other_branch_500_no_deploy defaultConfig (fun _ => true) none
    (.obj [("ref", .str "refs/heads/MASTER")]) "refs/heads/MASTER" rfl
    (by decide) (by decide)

theorem handle_webhook_hub_reduce (cfg : Config) (sig : Option String)
    (payload : Json) (docker : List String → Bool) :
    handle_webhook cfg none sig (some payload) docker =
      match dockerHubPath cfg payload docker with
      | .ok r => r
      | .error _ => internalError := rfl

theorem dockerHubPath_reduce (cfg : Config) (payload : Json)
    (docker : List String → Bool)
    (hpd : pyContains payload "push_data" = .ok true)
    (hrp : pyContains payload "repository" = .ok true)
    (r : Json) (hr : repoNameLookup payload = .ok r) :
    dockerHubPath cfg payload docker =
      match tagLookup payload with
      | .ok tag => .ok (routeTag cfg tag docker)
      | .error e => .error e := by
  unfold dockerHubPath
  rw [hpd, hrp, hr]
  cases tagLookup payload
  · rfl
  · rfl

theorem routeTag_status_200 (cfg : Config) (tag : Json)
    (docker : List String → Bool) : (routeTag cfg tag docker).status = 200 := by
  unfold routeTag
  split
  · rfl
  · split
    · rfl
    · rfl

/-- Counterexample to claim C6: with `DEV_IMAGE_TAG` configured to
`custom-dev` (and `PROD_IMAGE_TAG` to `prod-v2`), a registry push of the
configured development tag `custom-dev` is Ignored with no runtime call, while
a push of the literal `latest-dev` still deploys the development target — the
routing compares against the hard-coded literals, not the configured tags. -/
theorem c6_counterexample_configured_tag_ignored :
    handle_webhook customTagConfig none none
      (some (hubPayload "acme/app" "custom-dev")) (fun _ => true) =
      ⟨200, .obj [("status", .str "ignored"),
                  ("message", .str "Tag custom-dev not configured")], []⟩ ∧
    handle_webhook customTagConfig none none
      (some (hubPayload "acme/app" "latest-dev")) (fun _ => true) =
      ⟨200, .obj [("status", .str "success"),
                  ("message", .str "Deployment completed for development"),
                  ("tag", .str "latest-dev"), ("environment", .str "development")],
        [pullCmd (hubImage customTagConfig "latest-dev"), stopCmd "tripbundles-dev",
         rmCmd "tripbundles-dev",
         hubRunCmd "tripbundles-dev" (hubImage customTagConfig "latest-dev")
           "3001" "3000" "development"]⟩ := by
  constructor
  · rfl
  · rfl

/-- Claim C6 as amended: the registry-push routing compares the pushed tag to
the hard-coded literals `latest-dev` and `latest` — not to the configured
`DEV_IMAGE_TAG` / `PROD_IMAGE_TAG` — for every configuration: the literal
`latest-dev` deploys development, the literal `latest` deploys production, and
every other tag (including the configured ones when they differ from the
literals) is Ignored with a 200 response and no runtime call. -/
theorem c6_amended_literal_tag_routing (cfg : Config)
    (docker : List String → Bool) (sig : Option String) (payload : Json)
    (t : String)
    (hpd : pyContains payload "push_data" = .ok true)
    (hrp : pyContains payload "repository" = .ok true)
    (hrn : ∃ r, repoNameLookup payload = .ok r)
    (htag : tagLookup payload = .ok (.str t)) :
    (t = "latest-dev" →
      handle_webhook cfg none sig (some payload) docker =
        ⟨200, .obj [("status", .str "success"),
                    ("message", .str "Deployment completed for development"),
                    ("tag", .str t), ("environment", .str "development")],
          (deploy_container "development" cfg.DEV_CONTAINER_NAME (hubImage cfg t)
            cfg.DEV_HOST_PORT cfg.DEV_CONTAINER_PORT cfg.NODE_ENV_DEV docker).2⟩) ∧
    (t = "latest" →
      handle_webhook cfg none sig (some payload) docker =
        ⟨200, .obj [("status", .str "success"),
                    ("message", .str "Deployment completed for production"),
                    ("tag", .str t), ("environment", .str "production")],
          (deploy_container "production" cfg.PROD_CONTAINER_NAME (hubImage cfg t)
            cfg.PROD_HOST_PORT cfg.PROD_CONTAINER_PORT cfg.NODE_ENV_PROD docker).2⟩) ∧
    (t ≠ "latest-dev" → t ≠ "latest" →
      handle_webhook cfg none sig (some payload) docker =
        ⟨200, .obj [("status", .str "ignored"),
                    ("message", .str ("Tag " ++ t ++ " not configured"))], []⟩) := by
  obtain ⟨r, hr⟩ := hrn
  rw [handle_webhook_hub_reduce, dockerHubPath_reduce cfg payload docker hpd hrp r hr,
    htag]
  refine ⟨?_, ?_, ?_⟩
  · intro h
    subst h
    rfl
  · intro h
    subst h
    rfl
  · intro h1 h2
    simp [routeTag, jsonIsStr, h1, h2, pyStr]

/-- Witness for the amended C6: under the default configuration the literal
tag `latest-dev` deploys the development target. -/
theorem c6_amended_literal_tag_routing_witness :
    handle_webhook defaultConfig none none
      (some (hubPayload "acme/app" "latest-dev")) (fun _ => true) =
      ⟨200, .obj [("status", .str "success"),
                  ("message", .str "Deployment completed for development"),
                  ("tag", .str "latest-dev"), ("environment", .str "development")],
        (deploy_container "development" defaultConfig.DEV_CONTAINER_NAME
          (hubImage defaultConfig "latest-dev") defaultConfig.DEV_HOST_PORT
          defaultConfig.DEV_CONTAINER_PORT defaultConfig.NODE_ENV_DEV
          (fun _ => true)).2⟩ :=
  (c6_amended_literal_tag_routing defaultConfig (fun _ => true) none
    (hubPayload "acme/app" "latest-dev") "latest-dev" rfl rfl
    ⟨.str "acme/app", rfl⟩ rfl).1 rfl

/-- Counterexample to claim C7: a registry push of `latest-dev` against a
runtime in which every call fails makes `deploy_container` report `False`
(the pull failed), yet the handler — which discards `deploy_container`'s
result — answers 200 `Deployment completed`, not the claimed 500. -/
theorem c7_counterexample_registry_failure_200 :
    (deploy_container "development" defaultConfig.DEV_CONTAINER_NAME
      (hubImage defaultConfig "latest-dev") defaultConfig.DEV_HOST_PORT
      defaultConfig.DEV_CONTAINER_PORT defaultConfig.NODE_ENV_DEV
      (fun _ => false)).1 = false ∧
    handle_webhook defaultConfig none none
      (some (hubPayload "acme/app" "latest-dev")) (fun _ => false) =
      ⟨200, .obj [("status", .str "success"),
                  ("message", .str "Deployment completed for development"),
                  ("tag", .str "latest-dev"), ("environment", .str "development")],
        [pullCmd (hubImage defaultConfig "latest-dev")]⟩ := by
  constructor
  · rfl
  · rfl

/-- Claim C7 as amended: a deployment failure is answered with 500 `error`
only on the source-control path (where `update_container`'s `False` maps to
500); on the registry path the result of `deploy_container` is discarded and
the response status is 200 regardless of the executor's report. -/
theorem c7_amended_500_only_on_source_control_path (cfg : Config)
    (docker : List String → Bool) (sig : Option String) :
    (∀ payload ref, pyGetD payload "ref" (.str "") = .ok (.str ref) →
      (update_container cfg docker (pyReplaceDel ref "refs/heads/")).1 = false →
      handle_webhook cfg (some "push") sig (some payload) docker =
        ⟨500, .obj [("error",
          .str ("Deployment failed for " ++ pyReplaceDel ref "refs/heads/"))],
          (update_container cfg docker (pyReplaceDel ref "refs/heads/")).2⟩) ∧
    (∀ payload t, pyContains payload "push_data" = .ok true →
      pyContains payload "repository" = .ok true →
      (∃ r, repoNameLookup payload = .ok r) →
      tagLookup payload = .ok (.str t) → (t = "latest-dev" ∨ t = "latest") →
      (handle_webhook cfg none sig (some payload) docker).status = 200) := by
  constructor
  · intro payload ref href hfail
    rw [handle_webhook_push_reduce, href]
    simp [hfail]
  · intro payload t hpd hrp hrn htag _
    obtain ⟨r, hr⟩ := hrn
    rw [handle_webhook_hub_reduce,
      dockerHubPath_reduce cfg payload docker hpd hrp r hr, htag]
    exact routeTag_status_200 cfg (.str t) docker

/-- Witness for the amended C7: a failed `develop` deployment on the
source-control path is answered with the 500 error response. -/
theorem c7_amended_500_only_on_source_control_path_witness :
    handle_webhook defaultConfig (some "push") none
      (some (.obj [("ref", .str "refs/heads/develop")])) (fun _ => false) =
      ⟨500, .obj [("error",
        .str ("Deployment failed for " ++ pyReplaceDel "refs/heads/develop" "refs/heads/"))],
        (update_container defaultConfig (fun _ => false)
          (pyReplaceDel "refs/heads/develop" "refs/heads/")).2⟩ :=
  (c7_amended_500_only_on_source_control_path defaultConfig (fun _ => false) none).1
    (.obj [("ref", .str "refs/heads/develop")]) "refs/heads/develop" rfl rfl

/-- Counterexample to claim C9: the registry-path run command (built by
`deploy_container`) contains neither a `--restart` flag nor a `PORT`
environment variable — here at the default configuration with a fully
successful runtime. -/
theorem c9_counterexample_hub_run_lacks_port_restart :
    (deploy_container "development" "tripbundles-dev"
      "patabudlong/tripbundles-website:latest-dev" "3001" "3000" "development"
      (fun _ => true)).2 =
      [pullCmd "patabudlong/tripbundles-website:latest-dev",
       stopCmd "tripbundles-dev", rmCmd "tripbundles-dev",
       ["docker", "run", "-d", "--name", "tripbundles-dev", "-p", "3001:3000",
        "-e", "NODE_ENV=development",
        "patabudlong/tripbundles-website:latest-dev"]] ∧
    "--restart" ∉
      ["docker", "run", "-d", "--name", "tripbundles-dev", "-p", "3001:3000",
       "-e", "NODE_ENV=development",
       "patabudlong/tripbundles-website:latest-dev"] ∧
    "PORT=3000" ∉
      ["docker", "run", "-d", "--name", "tripbundles-dev", "-p", "3001:3000",
       "-e", "NODE_ENV=development",
       "patabudlong/tripbundles-website:latest-dev"] := by
  refine ⟨rfl, by decide, by decide⟩

/-- Claim C9 as amended: the two executors build different run commands.  The
source-control path (`update_container`) runs the new container detached with
the fixed name, the port binding, both `NODE_ENV` and `PORT` environment
variables, and `--restart unless-stopped`; the registry path
(`deploy_container`) runs it detached with the fixed name, the port binding
and `NODE_ENV` only — no `PORT` variable and no restart policy (shown
concretely at the default development arguments). -/
theorem c9_amended_run_command_flags (cfg : Config)
    (docker : List String → Bool) (env cn img hp' cp ne : String) :
    (docker (pullCmd (devImage cfg)) = true →
      (update_container cfg docker "develop").2 =
        [pullCmd (devImage cfg), stopCmd cfg.DEV_CONTAINER_NAME,
         rmCmd cfg.DEV_CONTAINER_NAME, devRunCmd cfg]) ∧
    ("-d" ∈ devRunCmd cfg ∧ "--restart" ∈ devRunCmd cfg ∧
      "unless-stopped" ∈ devRunCmd cfg ∧
      ("NODE_ENV=" ++ cfg.NODE_ENV_DEV) ∈ devRunCmd cfg ∧
      ("PORT=" ++ cfg.DEV_CONTAINER_PORT) ∈ devRunCmd cfg) ∧
    (docker (pullCmd (prodImage cfg)) = true →
      (update_container cfg docker "master").2 =
        [pullCmd (prodImage cfg), stopCmd cfg.PROD_CONTAINER_NAME,
         rmCmd cfg.PROD_CONTAINER_NAME, prodRunCmd cfg]) ∧
    ("-d" ∈ prodRunCmd cfg ∧ "--restart" ∈ prodRunCmd cfg ∧
      "unless-stopped" ∈ prodRunCmd cfg ∧
      ("NODE_ENV=" ++ cfg.NODE_ENV_PROD) ∈ prodRunCmd cfg ∧
      ("PORT=" ++ cfg.PROD_CONTAINER_PORT) ∈ prodRunCmd cfg) ∧
    (docker (pullCmd img) = true →
      (deploy_container env cn img hp' cp ne docker).2 =
        [pullCmd img, stopCmd cn, rmCmd cn, hubRunCmd cn img hp' cp ne]) ∧
    (hubRunCmd cn img hp' cp ne =
      ["docker", "run", "-d", "--name", cn, "-p", hp' ++ ":" ++ cp,
       "-e", "NODE_ENV=" ++ ne, img]) ∧
    ("--restart" ∉ hubRunCmd defaultConfig.DEV_CONTAINER_NAME
        (hubImage defaultConfig "latest-dev") defaultConfig.DEV_HOST_PORT
        defaultConfig.DEV_CONTAINER_PORT defaultConfig.NODE_ENV_DEV ∧
      "PORT=3000" ∉ hubRunCmd defaultConfig.DEV_CONTAINER_NAME
        (hubImage defaultConfig "latest-dev") defaultConfig.DEV_HOST_PORT
        defaultConfig.DEV_CONTAINER_PORT defaultConfig.NODE_ENV_DEV) := by
  refine ⟨?_, ?_, ?_, ?_, ?_, rfl, by decide, by decide⟩
  · intro hpull
    simp [update_container, runSeq, hpull]
  · simp [devRunCmd]
  · intro hpull
    simp [update_container, runSeq, hpull]
  · simp [prodRunCmd]
  · intro hpull
    simp [deploy_container, runSeq, hpull]

/-- Witness for the amended C9: with an all-succeeding runtime the `develop`
deployment issues exactly pull, stop, rm and the full-flag run command. -/
theorem c9_amended_run_command_flags_witness :
    (update_container defaultConfig (fun _ => true) "develop").2 =
      [pullCmd (devImage defaultConfig), stopCmd defaultConfig.DEV_CONTAINER_NAME,
       rmCmd defaultConfig.DEV_CONTAINER_NAME, devRunCmd defaultConfig] :=
  (c9_amended_run_command_flags defaultConfig (fun _ => true) "" "" "" "" "" "").1 rfl

/-- Claim C10 (confirmed): two registry-push payloads that agree on the
`push_data` tag lookup and both carry some `repository.repo_name` — i.e.
differ only in the repository name — produce identical handler outcomes: the
same status, the same response body, and the same runtime calls.  The
repository name is only interpolated into a log line; it never influences
routing, image choice or ports. -/
theorem c10_repo_name_never_influences_routing (cfg : Config)
    (docker : List String → Bool) (sig : Option String) (p1 p2 : Json)
    (h1 : pyContains p1 "push_data" = .ok true)
    (h1' : pyContains p2 "push_data" = .ok true)
    (h2 : pyContains p1 "repository" = .ok true)
    (h2' : pyContains p2 "repository" = .ok true)
    (h3 : ∃ r, repoNameLookup p1 = .ok r)
    (h3' : ∃ r, repoNameLookup p2 = .ok r)
    (h4 : tagLookup p1 = tagLookup p2) :
    handle_webhook cfg none sig (some p1) docker =
      handle_webhook cfg none sig (some p2) docker := by
  obtain ⟨r1, hr1⟩ := h3
  obtain ⟨r2, hr2⟩ := h3'
  rw [handle_webhook_hub_reduce, handle_webhook_hub_reduce,
    dockerHubPath_reduce cfg p1 docker h1 h2 r1 hr1,
    dockerHubPath_reduce cfg p2 docker h1' h2' r2 hr2, h4]

/-- Witness for C10: two concrete payloads differing only in the repository
name are handled identically. -/
theorem c10_repo_name_never_influences_routing_witness :
    handle_webhook defaultConfig none none
      (some (hubPayload "acme/app" "sometag")) (fun _ => true) =
      handle_webhook defaultConfig none none
        (some (hubPayload "other/repo" "sometag")) (fun _ => true) :=
  c10_repo_name_never_influences_routing defaultConfig (fun _ => true) none
    (hubPayload "acme/app" "sometag") (hubPayload "other/repo" "sometag")
    rfl rfl rfl rfl ⟨.str "acme/app", rfl⟩ ⟨.str "other/repo", rfl⟩ rfl
